import Mathlib

/-!
Shallow embedding of the request lifecycle of `src/request.rs`: the constants,
the wire records it exchanges, `Request::read`, `Request::dispatch`,
`Request::send` / `reply` / `reply_error`, and the session state machine.

Machine integers are modelled as `Nat` (unsigned) and `Int` (signed error
codes), with an explicit `% 2^32` wherever the source computes in `u32`.
Side effects (filesystem calls, the vectored write, assertion failures) are
made explicit: `dispatch` returns the updated session, the list of filesystem
methods it called, and the reply frame it wrote (if any), or an `aborted`
outcome when a runtime assertion in the source fails.
-/

namespace Fuse

/-! OS error codes imported by `src/request.rs` from `std::libc`
(their numeric values are the usual Linux ones; only their identity
matters to the dispatcher). -/

def EIO : Int := 5

def ENOSYS : Int := 38

def ERANGE : Int := 34

def EPROTO : Int := 71

/-- Maximum write size (`MAX_WRITE_SIZE` in `src/request.rs`). -/
def MAX_WRITE_SIZE : Nat := 16 * 1024 * 1024

/-- Modelled from the spec: protocol constants of the external Wire Schema
(`native::consts`, not part of the core). Only their identity matters here. -/
def FUSE_KERNEL_VERSION : Nat := 7

/-- Modelled from the spec: the minor protocol version advertised by the driver. -/
def FUSE_KERNEL_MINOR_VERSION : Nat := 8

/-- Modelled from the spec: feature flag bit advertised during INIT. -/
def FUSE_ASYNC_READ : Nat := 1

/-- Modelled from the spec: feature flag bit advertised during INIT. -/
def FUSE_CASE_INSENSITIVE : Nat := 8

/-- Modelled from the spec: flag tested by the RELEASE handler. -/
def FUSE_RELEASE_FLUSH : Nat := 1

/-- Flags advertised during INIT (`INIT_FLAGS` in `src/request.rs`). -/
def INIT_FLAGS : Nat := FUSE_ASYNC_READ ||| FUSE_CASE_INSENSITIVE

/-- Truncation to `u32`, applied wherever the source computes in `u32`. -/
def wrap32 (n : Nat) : Nat := n % 2 ^ 32

/-- Modelled from the spec: byte size of the request header record
(`fuse_in_header` of the external Wire Schema). -/
def fuseInHeaderSize : Nat := 40

/-- Modelled from the spec: byte size of the reply header record
(`fuse_out_header` of the external Wire Schema). -/
def fuseOutHeaderSize : Nat := 16

/-! Fixed-size wire records. The record layouts live in the external Wire
Schema (`native.rs`); the fields below are the ones the dispatcher reads.
Reply records whose contents the dispatcher never inspects are carried
around as single-field stand-ins together with their byte size. -/

structure fuse_in_header where
  len : Nat
  opcode : Nat
  unique : Nat
  nodeid : Nat
deriving DecidableEq

structure fuse_init_in where
  major : Nat
  minor : Nat
  max_readahead : Nat
  flags : Nat
deriving DecidableEq

structure fuse_init_out where
  major : Nat
  minor : Nat
  max_readahead : Nat
  flags : Nat
  unused : Nat
  max_write : Nat
deriving DecidableEq

structure fuse_forget_in where
  nlookup : Nat
deriving DecidableEq

structure fuse_setattr_in where
  valid : Nat
deriving DecidableEq

structure fuse_mknod_in where
  mode : Nat
  rdev : Nat
deriving DecidableEq

structure fuse_mkdir_in where
  mode : Nat
deriving DecidableEq

structure fuse_rename_in where
  newdir : Nat
deriving DecidableEq

structure fuse_link_in where
  oldnodeid : Nat
deriving DecidableEq

structure fuse_open_in where
  flags : Nat
  mode : Nat
deriving DecidableEq

structure fuse_read_in where
  fh : Nat
  offset : Nat
  size : Nat
deriving DecidableEq

structure fuse_write_in where
  fh : Nat
  offset : Nat
  size : Nat
  write_flags : Nat
deriving DecidableEq

structure fuse_flush_in where
  fh : Nat
  lock_owner : Nat
deriving DecidableEq

structure fuse_release_in where
  fh : Nat
  flags : Nat
  release_flags : Nat
  lock_owner : Nat
deriving DecidableEq

structure fuse_fsync_in where
  fh : Nat
  fsync_flags : Nat
deriving DecidableEq

structure fuse_setxattr_in where
  size : Nat
  flags : Nat
  position : Nat
deriving DecidableEq

structure fuse_getxattr_in where
  size : Nat
deriving DecidableEq

structure fuse_access_in where
  mask : Nat
deriving DecidableEq

structure fuse_bmap_in where
  blocksize : Nat
  block : Nat
deriving DecidableEq

structure fuse_exchange_in where
  olddir : Nat
  newdir : Nat
  options : Nat
deriving DecidableEq

structure fuse_write_out where
  size : Nat
  padding : Nat
deriving DecidableEq

structure fuse_getxattr_out where
  size : Nat
  padding : Nat
deriving DecidableEq

structure fuse_entry_out where
  raw : Nat
deriving DecidableEq

structure fuse_attr_out where
  raw : Nat
deriving DecidableEq

structure fuse_open_out where
  raw : Nat
deriving DecidableEq

structure fuse_statfs_out where
  raw : Nat
deriving DecidableEq

structure fuse_bmap_out where
  raw : Nat
deriving DecidableEq

structure fuse_getxtimes_out where
  raw : Nat
deriving DecidableEq

/-- Modelled from the spec: byte sizes of the fixed reply records of the Wire
Schema; the reply encoder depends only on each being a fixed size. -/
def entryOutSize : Nat := 136

/-- Modelled from the spec: byte size of the attribute reply record. -/
def attrOutSize : Nat := 120

/-- Modelled from the spec: byte size of the open reply record. -/
def openOutSize : Nat := 16

/-- Modelled from the spec: byte size of the statfs reply record. -/
def statfsOutSize : Nat := 96

/-- Modelled from the spec: byte size of the write reply record. -/
def writeOutSize : Nat := 8

/-- Modelled from the spec: byte size of the getxattr reply record. -/
def getxattrOutSize : Nat := 8

/-- Modelled from the spec: byte size of the init reply record. -/
def initOutSize : Nat := 24

/-- Modelled from the spec: byte size of the bmap reply record. -/
def bmapOutSize : Nat := 8

/-- Modelled from the spec: byte size of the getxtimes reply record. -/
def getxtimesOutSize : Nat := 32

/-- A reply payload handed to `Request::send` (one of the `Sendable` types of
`src/request.rs`; `unit` is the `()` payload of the error path and of the
ack-only operations). -/
inductive ReplyData where
  | unit
  | entryOut (e : fuse_entry_out)
  | attrOut (a : fuse_attr_out)
  | openOut (o : fuse_open_out)
  | statfsOut (s : fuse_statfs_out)
  | writeOut (w : fuse_write_out)
  | getxattrOut (g : fuse_getxattr_out)
  | initOut (i : fuse_init_out)
  | bmapOut (b : fuse_bmap_out)
  | getxtimesOut (g : fuse_getxtimes_out)
  | bytes (data : List Nat)
deriving DecidableEq

/-- Modelled from the spec: the lengths of the memory regions a payload
decomposes into (the `iovec` lengths produced by `Sendable::as_iovecs`):
a fixed-size record is one region of its size, a byte vector is one region
of its length, and the `()` payload contributes no region. -/
def ReplyData.regionLens : ReplyData → List Nat
  | .unit => []
  | .entryOut _ => [entryOutSize]
  | .attrOut _ => [attrOutSize]
  | .openOut _ => [openOutSize]
  | .statfsOut _ => [statfsOutSize]
  | .writeOut _ => [writeOutSize]
  | .getxattrOut _ => [getxattrOutSize]
  | .initOut _ => [initOutSize]
  | .bmapOut _ => [bmapOutSize]
  | .getxtimesOut _ => [getxtimesOutSize]
  | .bytes data => [data.length]

structure fuse_out_header where
  len : Nat
  error : Int
  unique : Nat
deriving DecidableEq

/-- One reply frame written to the channel: the header, the payload regions
that follow it, and the number of `writev` syscalls that emitted it. -/
structure Frame where
  header : fuse_out_header
  payload : ReplyData
  writevCalls : Nat
deriving DecidableEq

namespace Request

/-- Embedding of `Request::send`: fold the payload region lengths in `u32`,
build the out header (total length, error code, echoed unique id) and emit
header plus payload regions with one vectored write. -/
def send (unique : Nat) (err : Int) (data : ReplyData) : Frame :=
  let len := data.regionLens.foldl (fun l n => wrap32 (l + n)) 0
  { header := { len := wrap32 (fuseOutHeaderSize + len), error := err, unique := unique },
    payload := data,
    writevCalls := 1 }

/-- Embedding of `Request::reply`: success sends the payload with error 0,
failure sends the `()` payload with the negated error code. -/
def reply (unique : Nat) : Except Int ReplyData → Frame
  | .ok data => send unique 0 data
  | .error err => send unique (-err) .unit

/-- Embedding of `Request::reply_error`. -/
def reply_error (unique : Nat) (err : Int) : Frame :=
  send unique (-err) .unit

end Request

/-- The filesystem capability interface as the dispatcher consumes it: one
call per protocol verb, each returning a success value or an OS error code.
`forget` and `destroy` return nothing and are recorded only in the call log. -/
structure Filesystem where
  init : Except Int Unit
  lookup : Nat → String → Except Int fuse_entry_out
  getattr : Nat → Except Int fuse_attr_out
  setattr : Nat → fuse_setattr_in → Except Int fuse_attr_out
  readlink : Nat → Except Int (List Nat)
  mknod : Nat → String → Nat → Nat → Except Int fuse_entry_out
  mkdir : Nat → String → Nat → Except Int fuse_entry_out
  unlink : Nat → String → Except Int Unit
  rmdir : Nat → String → Except Int Unit
  symlink : Nat → String → String → Except Int fuse_entry_out
  rename : Nat → String → Nat → String → Except Int Unit
  link : Nat → Nat → String → Except Int fuse_entry_out
  open_ : Nat → Nat → Except Int fuse_open_out
  read : Nat → Nat → Nat → Nat → Except Int (List Nat)
  write : Nat → Nat → Nat → List Nat → Nat → Except Int Nat
  flush : Nat → Nat → Nat → Except Int Unit
  release : Nat → Nat → Nat → Nat → Bool → Except Int Unit
  fsync : Nat → Nat → Bool → Except Int Unit
  opendir : Nat → Nat → Except Int fuse_open_out
  readdir : Nat → Nat → Nat → Nat → Except Int (List Nat)
  releasedir : Nat → Nat → Nat → Except Int Unit
  fsyncdir : Nat → Nat → Bool → Except Int Unit
  statfs : Nat → Except Int fuse_statfs_out
  setxattr : Nat → String → List Nat → Nat → Nat → Except Int Unit
  getxattr : Nat → String → Except Int (List Nat)
  listxattr : Nat → Except Int Unit
  removexattr : Nat → String → Except Int Unit
  access : Nat → Nat → Except Int Unit
  bmap : Nat → Nat → Nat → Except Int fuse_bmap_out
  setvolname : String → Except Int Unit
  exchange : Nat → String → Nat → String → Nat → Except Int Unit
  getxtimes : Nat → Except Int fuse_getxtimes_out

/-- The session state the dispatcher reads and mutates (`session.rs` fields
used by `src/request.rs`). -/
structure Session where
  proto_major : Nat
  proto_minor : Nat
  initialized : Bool
  destroyed : Bool
  filesystem : Filesystem

/-- One decoded incoming message: the per-opcode argument record, name
strings and trailing byte span as `Request::dispatch` fetches them.
`unsupported` stands for any opcode outside the dispatch table. -/
inductive FuseMessage where
  | init (arg : fuse_init_in)
  | destroy
  | lookup (name : String)
  | forget (arg : fuse_forget_in)
  | getattr
  | setattr (arg : fuse_setattr_in)
  | readlink
  | mknod (arg : fuse_mknod_in) (name : String)
  | mkdir (arg : fuse_mkdir_in) (name : String)
  | unlink (name : String)
  | rmdir (name : String)
  | symlink (name : String) (link : String)
  | rename (arg : fuse_rename_in) (name : String) (newname : String)
  | link (arg : fuse_link_in) (newname : String)
  | open_ (arg : fuse_open_in)
  | read (arg : fuse_read_in)
  | write (arg : fuse_write_in) (data : List Nat)
  | flush (arg : fuse_flush_in)
  | release (arg : fuse_release_in)
  | fsync (arg : fuse_fsync_in)
  | opendir (arg : fuse_open_in)
  | readdir (arg : fuse_read_in)
  | releasedir (arg : fuse_release_in)
  | fsyncdir (arg : fuse_fsync_in)
  | statfs
  | setxattr (arg : fuse_setxattr_in) (name : String) (value : List Nat)
  | getxattr (arg : fuse_getxattr_in) (name : String)
  | listxattr (arg : fuse_getxattr_in)
  | removexattr (name : String)
  | access (arg : fuse_access_in)
  | bmap (arg : fuse_bmap_in)
  | setvolname (name : String)
  | exchange (arg : fuse_exchange_in) (oldname : String) (newname : String)
  | getxtimes
  | unsupported (opcode : Nat)
deriving DecidableEq

/-- A record of one filesystem capability call made during dispatch, with the
arguments it was given. -/
inductive FsCall where
  | init
  | destroy
  | lookup (nodeid : Nat) (name : String)
  | forget (nodeid : Nat) (nlookup : Nat)
  | getattr (nodeid : Nat)
  | setattr (nodeid : Nat) (arg : fuse_setattr_in)
  | readlink (nodeid : Nat)
  | mknod (parent : Nat) (name : String) (mode : Nat) (rdev : Nat)
  | mkdir (parent : Nat) (name : String) (mode : Nat)
  | unlink (parent : Nat) (name : String)
  | rmdir (parent : Nat) (name : String)
  | symlink (parent : Nat) (name : String) (link : String)
  | rename (parent : Nat) (name : String) (newparent : Nat) (newname : String)
  | link (oldnodeid : Nat) (newparent : Nat) (newname : String)
  | open_ (nodeid : Nat) (flags : Nat)
  | read (nodeid : Nat) (fh : Nat) (offset : Nat) (size : Nat)
  | write (nodeid : Nat) (fh : Nat) (offset : Nat) (data : List Nat) (flags : Nat)
  | flush (nodeid : Nat) (fh : Nat) (lock_owner : Nat)
  | release (nodeid : Nat) (fh : Nat) (flags : Nat) (lock_owner : Nat) (flushFlag : Bool)
  | fsync (nodeid : Nat) (fh : Nat) (datasync : Bool)
  | opendir (nodeid : Nat) (flags : Nat)
  | readdir (nodeid : Nat) (fh : Nat) (offset : Nat) (size : Nat)
  | releasedir (nodeid : Nat) (fh : Nat) (flags : Nat)
  | fsyncdir (nodeid : Nat) (fh : Nat) (datasync : Bool)
  | statfs (nodeid : Nat)
  | setxattr (nodeid : Nat) (name : String) (value : List Nat) (flags : Nat) (position : Nat)
  | getxattr (nodeid : Nat) (name : String)
  | listxattr (nodeid : Nat)
  | removexattr (nodeid : Nat) (name : String)
  | access (nodeid : Nat) (mask : Nat)
  | bmap (nodeid : Nat) (blocksize : Nat) (block : Nat)
  | setvolname (name : String)
  | exchange (olddir : Nat) (oldname : String) (newdir : Nat) (newname : String) (options : Nat)
  | getxtimes (nodeid : Nat)
deriving DecidableEq

/-- What one dispatch produced: the session as left behind, the filesystem
calls made (in order), and the reply frame written to the channel, if any. -/
structure DispatchOut where
  se : Session
  calls : List FsCall
  reply : Option Frame

/-- Outcome of `Request::dispatch`: normal completion, or an aborted task
when a runtime assertion of the source fails. -/
inductive DispatchResult where
  | ok (out : DispatchOut)
  | aborted (se : Session) (calls : List FsCall)

def DispatchResult.calls : DispatchResult → List FsCall
  | .ok out => out.calls
  | .aborted _ cs => cs

def DispatchResult.session : DispatchResult → Session
  | .ok out => out.se
  | .aborted se _ => se

def DispatchResult.replyOf : DispatchResult → Option Frame
  | .ok out => out.reply
  | .aborted _ _ => none

/-- The per-opcode handler arms of `Request::dispatch`, reached only after the
INIT arm, the pre-init guard, the DESTROY arm and the post-destroy guard have
all fallen through (see `dispatch`). The final catch-all arm is the source's
unsupported-opcode arm replying ENOSYS; `init` and `destroy` are routed by
`dispatch` before this function and never reach it. -/
def dispatchOp (hdr : fuse_in_header) (msg : FuseMessage) (se : Session) : DispatchResult :=
  let fs := se.filesystem
  let one (c : FsCall) (f : Frame) : DispatchResult :=
    .ok { se := se, calls := [c], reply := some f }
  let rp (c : FsCall) (r : Except Int ReplyData) : DispatchResult :=
    one c (Request.reply hdr.unique r)
  match msg with
  | .lookup name =>
      rp (.lookup hdr.nodeid name) ((fs.lookup hdr.nodeid name).map .entryOut)
  | .forget arg =>
      .ok { se := se, calls := [.forget hdr.nodeid arg.nlookup], reply := none }
  | .getattr =>
      rp (.getattr hdr.nodeid) ((fs.getattr hdr.nodeid).map .attrOut)
  | .setattr arg =>
      rp (.setattr hdr.nodeid arg) ((fs.setattr hdr.nodeid arg).map .attrOut)
  | .readlink =>
      rp (.readlink hdr.nodeid) ((fs.readlink hdr.nodeid).map .bytes)
  | .mknod arg name =>
      rp (.mknod hdr.nodeid name arg.mode arg.rdev)
        ((fs.mknod hdr.nodeid name arg.mode arg.rdev).map .entryOut)
  | .mkdir arg name =>
      rp (.mkdir hdr.nodeid name arg.mode) ((fs.mkdir hdr.nodeid name arg.mode).map .entryOut)
  | .unlink name =>
      rp (.unlink hdr.nodeid name) ((fs.unlink hdr.nodeid name).map fun _ => .unit)
  | .rmdir name =>
      rp (.rmdir hdr.nodeid name) ((fs.rmdir hdr.nodeid name).map fun _ => .unit)
  | .symlink name link =>
      rp (.symlink hdr.nodeid name link) ((fs.symlink hdr.nodeid name link).map .entryOut)
  | .rename arg name newname =>
      rp (.rename hdr.nodeid name arg.newdir newname)
        ((fs.rename hdr.nodeid name arg.newdir newname).map fun _ => .unit)
  | .link arg newname =>
      rp (.link arg.oldnodeid hdr.nodeid newname)
        ((fs.link arg.oldnodeid hdr.nodeid newname).map .entryOut)
  | .open_ arg =>
      rp (.open_ hdr.nodeid arg.flags) ((fs.open_ hdr.nodeid arg.flags).map .openOut)
  | .read arg =>
      rp (.read hdr.nodeid arg.fh arg.offset arg.size)
        ((fs.read hdr.nodeid arg.fh arg.offset arg.size).map .bytes)
  | .write arg data =>
      -- assert!(data.len() == arg.size as uint): a mismatch aborts the task.
      if data.length = arg.size then
        rp (.write hdr.nodeid arg.fh arg.offset data arg.write_flags)
          ((fs.write hdr.nodeid arg.fh arg.offset data arg.write_flags).map fun written =>
            .writeOut { size := wrap32 written, padding := 0 })
      else
        .aborted se []
  | .flush arg =>
      rp (.flush hdr.nodeid arg.fh arg.lock_owner)
        ((fs.flush hdr.nodeid arg.fh arg.lock_owner).map fun _ => .unit)
  | .release arg =>
      let flushFlag := decide (arg.release_flags &&& FUSE_RELEASE_FLUSH ≠ 0)
      rp (.release hdr.nodeid arg.fh arg.flags arg.lock_owner flushFlag)
        ((fs.release hdr.nodeid arg.fh arg.flags arg.lock_owner flushFlag).map fun _ => .unit)
  | .fsync arg =>
      let datasync := decide (arg.fsync_flags &&& 1 ≠ 0)
      rp (.fsync hdr.nodeid arg.fh datasync)
        ((fs.fsync hdr.nodeid arg.fh datasync).map fun _ => .unit)
  | .opendir arg =>
      rp (.opendir hdr.nodeid arg.flags) ((fs.opendir hdr.nodeid arg.flags).map .openOut)
  | .readdir arg =>
      rp (.readdir hdr.nodeid arg.fh arg.offset arg.size)
        ((fs.readdir hdr.nodeid arg.fh arg.offset arg.size).map .bytes)
  | .releasedir arg =>
      rp (.releasedir hdr.nodeid arg.fh arg.flags)
        ((fs.releasedir hdr.nodeid arg.fh arg.flags).map fun _ => .unit)
  | .fsyncdir arg =>
      let datasync := decide (arg.fsync_flags &&& 1 ≠ 0)
      rp (.fsyncdir hdr.nodeid arg.fh datasync)
        ((fs.fsyncdir hdr.nodeid arg.fh datasync).map fun _ => .unit)
  | .statfs =>
      rp (.statfs hdr.nodeid) ((fs.statfs hdr.nodeid).map .statfsOut)
  | .setxattr arg name value =>
      -- assert!(value.len() == arg.size as uint): a mismatch aborts the task.
      if value.length = arg.size then
        rp (.setxattr hdr.nodeid name value arg.flags arg.position)
          ((fs.setxattr hdr.nodeid name value arg.flags arg.position).map fun _ => .unit)
      else
        .aborted se []
  | .getxattr arg name =>
      match fs.getxattr hdr.nodeid name with
      | .ok value =>
          if arg.size = 0 then
            rp (.getxattr hdr.nodeid name)
              (.ok (.getxattrOut { size := wrap32 value.length, padding := 0 }))
          else if value.length > arg.size then
            one (.getxattr hdr.nodeid name) (Request.reply_error hdr.unique ERANGE)
          else
            rp (.getxattr hdr.nodeid name) (.ok (.bytes value))
      | .error err =>
          one (.getxattr hdr.nodeid name) (Request.reply_error hdr.unique err)
  | .listxattr _ =>
      match fs.listxattr hdr.nodeid with
      | .ok _ => one (.listxattr hdr.nodeid) (Request.reply_error hdr.unique ENOSYS)
      | .error err => one (.listxattr hdr.nodeid) (Request.reply_error hdr.unique err)
  | .removexattr name =>
      rp (.removexattr hdr.nodeid name) ((fs.removexattr hdr.nodeid name).map fun _ => .unit)
  | .access arg =>
      rp (.access hdr.nodeid arg.mask) ((fs.access hdr.nodeid arg.mask).map fun _ => .unit)
  | .bmap arg =>
      rp (.bmap hdr.nodeid arg.blocksize arg.block)
        ((fs.bmap hdr.nodeid arg.blocksize arg.block).map .bmapOut)
  | .setvolname name =>
      rp (.setvolname name) ((fs.setvolname name).map fun _ => .unit)
  | .exchange arg oldname newname =>
      rp (.exchange arg.olddir oldname arg.newdir newname arg.options)
        ((fs.exchange arg.olddir oldname arg.newdir newname arg.options).map fun _ => .unit)
  | .getxtimes =>
      rp (.getxtimes hdr.nodeid) ((fs.getxtimes hdr.nodeid).map .getxtimesOut)
  | _ =>
      .ok { se := se, calls := [], reply := some (Request.reply_error hdr.unique ENOSYS) }

/-- Embedding of `Request::dispatch`, preserving the order of the source's
match arms: the INIT arm matches first in any state; then the pre-init guard
rejects every other opcode with EIO; then the DESTROY arm; then the
post-destroy guard rejects every remaining opcode with EIO; then the
per-opcode handlers (`dispatchOp`). -/
def dispatch (hdr : fuse_in_header) (msg : FuseMessage) (se : Session) : DispatchResult :=
  match msg with
  | .init arg =>
      -- We don't support ABI versions before 7.6 (the source's comparison,
      -- verbatim: arg.major < 7 || (arg.major < 7 && arg.minor < 6)).
      if arg.major < 7 ∨ (arg.major < 7 ∧ arg.minor < 6) then
        .ok { se := se, calls := [], reply := some (Request.reply_error hdr.unique EPROTO) }
      else
        -- Remember ABI version supported by kernel, then call the init hook.
        let se1 := { se with proto_major := arg.major, proto_minor := arg.minor }
        match se1.filesystem.init with
        | .error err =>
            .ok { se := se1, calls := [.init],
                  reply := some (Request.reply_error hdr.unique err) }
        | .ok _ =>
            let out : fuse_init_out :=
              { major := FUSE_KERNEL_VERSION, minor := FUSE_KERNEL_MINOR_VERSION,
                max_readahead := arg.max_readahead, flags := INIT_FLAGS,
                unused := 0, max_write := MAX_WRITE_SIZE }
            .ok { se := { se1 with initialized := true }, calls := [.init],
                  reply := some (Request.reply hdr.unique (.ok (.initOut out))) }
  | .destroy =>
      if !se.initialized then
        .ok { se := se, calls := [], reply := some (Request.reply_error hdr.unique EIO) }
      else
        .ok { se := { se with destroyed := true }, calls := [.destroy],
              reply := some (Request.reply hdr.unique (.ok .unit)) }
  | msg =>
      if !se.initialized then
        .ok { se := se, calls := [], reply := some (Request.reply_error hdr.unique EIO) }
      else if se.destroyed then
        .ok { se := se, calls := [], reply := some (Request.reply_error hdr.unique EIO) }
      else
        dispatchOp hdr msg se

/-- Outcome of `Request::read`: the new buffer length on success, the error
code on failure, or an aborted task when the capacity assertion fails. -/
inductive ReadResult where
  | ok (bufLen : Nat)
  | err (e : Int)
  | aborted
deriving DecidableEq

namespace Request

/-- Embedding of `Request::read`. `capacity` is the buffer capacity, `res`
the return value of the underlying `libc::read` (sized to full capacity) and
`errno` the OS error code the platform reports when `res` is negative. -/
def read (capacity : Nat) (res : Int) (errno : Int) : ReadResult :=
  if capacity < MAX_WRITE_SIZE + 4096 then
    .aborted
  else if res < 0 then
    .err errno
  else if res < (fuseInHeaderSize : Int) then
    .err EIO
  else
    .ok res.toNat

end Request

/-- The entry assertion of `Request::dispatch`: the buffer holds at least a
request header. -/
def dispatchEntryAssertion (bufLen : Nat) : Prop :=
  fuseInHeaderSize ≤ bufLen

/-- Completion marker of a dispatch: `true` unless a runtime assertion of the
source failed. -/
def DispatchResult.completed : DispatchResult → Bool
  | .ok _ => true
  | .aborted _ _ => false

/-! Concrete fixtures for the concrete-input theorems below: a filesystem
whose init hook succeeds and whose operations all report ENOSYS, a variant
with a stored extended attribute, a variant whose init hook fails, and
sessions in each of the three protocol states. -/

def fsStub : Filesystem where
  init := .ok ()
  lookup := fun _ _ => .error ENOSYS
  getattr := fun _ => .error ENOSYS
  setattr := fun _ _ => .error ENOSYS
  readlink := fun _ => .error ENOSYS
  mknod := fun _ _ _ _ => .error ENOSYS
  mkdir := fun _ _ _ => .error ENOSYS
  unlink := fun _ _ => .error ENOSYS
  rmdir := fun _ _ => .error ENOSYS
  symlink := fun _ _ _ => .error ENOSYS
  rename := fun _ _ _ _ => .error ENOSYS
  link := fun _ _ _ => .error ENOSYS
  open_ := fun _ _ => .error ENOSYS
  read := fun _ _ _ _ => .error ENOSYS
  write := fun _ _ _ _ _ => .error ENOSYS
  flush := fun _ _ _ => .error ENOSYS
  release := fun _ _ _ _ _ => .error ENOSYS
  fsync := fun _ _ _ => .error ENOSYS
  opendir := fun _ _ => .error ENOSYS
  readdir := fun _ _ _ _ => .error ENOSYS
  releasedir := fun _ _ _ => .error ENOSYS
  fsyncdir := fun _ _ _ => .error ENOSYS
  statfs := fun _ => .error ENOSYS
  setxattr := fun _ _ _ _ _ => .error ENOSYS
  getxattr := fun _ _ => .error ENOSYS
  listxattr := fun _ => .error ENOSYS
  removexattr := fun _ _ => .error ENOSYS
  access := fun _ _ => .error ENOSYS
  bmap := fun _ _ _ => .error ENOSYS
  setvolname := fun _ => .error ENOSYS
  exchange := fun _ _ _ _ _ => .error ENOSYS
  getxtimes := fun _ => .error ENOSYS

def hdr0 : fuse_in_header := { len := 64, opcode := 0, unique := 5, nodeid := 1 }

def seFresh : Session :=
  { proto_major := 0, proto_minor := 0, initialized := false, destroyed := false,
    filesystem := fsStub }

def seLive : Session := { seFresh with initialized := true, proto_major := 7, proto_minor := 8 }

def seDead : Session := { seLive with destroyed := true }

def fsBad : Filesystem := { fsStub with init := .error 13 }

def seBad : Session := { seFresh with filesystem := fsBad }

def fsXattr : Filesystem :=
  { fsStub with getxattr := fun _ _ => .ok [1, 2, 3, 4, 5, 6, 7, 8, 9, 10] }

def seXattr : Session := { seLive with filesystem := fsXattr }

/-! Helper lemmas. -/

/-- The wrapping `u32` fold of `Request::send` computes the sum of the region
lengths modulo `2 ^ 32`. -/
theorem wrap32_foldl (l : List Nat) (a : Nat) :
    l.foldl (fun x n => wrap32 (x + n)) (a % 2 ^ 32) = (a + l.sum) % 2 ^ 32 := by
  induction l generalizing a with
  | nil => simp
  | cons n t ih =>
      simp only [List.foldl_cons, List.sum_cons, wrap32]
      rw [Nat.mod_add_mod]
      have h := ih (a + n)
      simp only [wrap32] at h
      rw [h, Nat.add_assoc]

/-- Length field actually produced by `Request::send` when the frame does not
overflow `u32`. -/
theorem send_len (u : Nat) (err : Int) (d : ReplyData)
    (h : fuseOutHeaderSize + d.regionLens.sum < 2 ^ 32) :
    (Request.send u err d).header.len = fuseOutHeaderSize + d.regionLens.sum := by
  have h1 : d.regionLens.foldl (fun x n => wrap32 (x + n)) 0 = d.regionLens.sum := by
    have h2 := wrap32_foldl d.regionLens 0
    simp only [Nat.zero_mod, Nat.zero_add] at h2
    rw [h2, Nat.mod_eq_of_lt (by omega)]
  show wrap32 (fuseOutHeaderSize + d.regionLens.foldl (fun x n => wrap32 (x + n)) 0)
      = fuseOutHeaderSize + d.regionLens.sum
  rw [h1, wrap32, Nat.mod_eq_of_lt h]

/-- The per-opcode handlers never invoke the lifecycle hooks: neither
`FsCall.init` nor `FsCall.destroy` appears in the calls of `dispatchOp`. -/
theorem dispatchOp_no_lifecycle_calls (hdr : fuse_in_header) (msg : FuseMessage) (se : Session) :
    (dispatchOp hdr msg se).calls.count FsCall.init = 0
    ∧ (dispatchOp hdr msg se).calls.count FsCall.destroy = 0 := by
  cases msg <;>
    simp only [dispatchOp] <;>
    (repeat' split) <;>
    simp [DispatchResult.calls, List.count_cons, List.count_nil]

/-! Claim theorems. -/

/-- C1: the claim says an INIT with kernel ABI 7.5 is rejected with EPROTO.
The source's comparison `arg.major < 7 || (arg.major < 7 && arg.minor < 6)`
is equivalent to `arg.major < 7` alone, so 7.5 is accepted: the session is
initialized and the reply is the success INIT frame (error field 0), contrary
to the claim and to the source's own comment that versions before 7.6 are
unsupported. -/
theorem init_accepts_abi_7_5 :
    (dispatch hdr0 (.init { major := 7, minor := 5, max_readahead := 8192, flags := 0 })
        seFresh).session.initialized = true
    ∧ ((dispatch hdr0 (.init { major := 7, minor := 5, max_readahead := 8192, flags := 0 })
        seFresh).replyOf.map fun f => f.header.error) = some 0 :=
  ⟨rfl, rfl⟩

/-- C2: every reply frame has header length equal to the reply header size
plus the sum of the payload region lengths (when that total fits in `u32`,
which the source computes in), echoes the request's unique id, is emitted by
exactly one vectored write, carries error 0 on success and the negated OS
error code with a zero-length payload on error; `reply_error` is the error
branch of `reply`. -/
theorem reply_frame_invariant (u : Nat) (r : Except Int ReplyData)
    (h : fuseOutHeaderSize + (Request.reply u r).payload.regionLens.sum < 2 ^ 32) :
    (Request.reply u r).header.len
        = fuseOutHeaderSize + (Request.reply u r).payload.regionLens.sum
    ∧ (Request.reply u r).header.unique = u
    ∧ (Request.reply u r).writevCalls = 1
    ∧ (∀ d, r = .ok d → (Request.reply u r).header.error = 0)
    ∧ (∀ e, r = .error e → (Request.reply u r).header.error = -e
        ∧ (Request.reply u r).payload.regionLens = [])
    ∧ (∀ e, Request.reply_error u e = Request.reply u (.error e)) := by
  refine ⟨?_, ?_, ?_, ?_, ?_, ?_⟩
  · cases r with
    | ok d => exact send_len u 0 d h
    | error e => exact send_len u (-e) .unit h
  · cases r <;> rfl
  · cases r <;> rfl
  · intro d hd; subst hd; rfl
  · intro e he; subst he; exact ⟨rfl, rfl⟩
  · intro e; rfl

/-- Witness for C2 at a concrete success reply carrying a three-byte payload. -/
theorem reply_frame_invariant_witness :
    (Request.reply 42 (.ok (.bytes [1, 2, 3]))).header.len
      = fuseOutHeaderSize + (Request.reply 42 (.ok (.bytes [1, 2, 3]))).payload.regionLens.sum :=
  (reply_frame_invariant 42 (.ok (.bytes [1, 2, 3])) (by decide)).1

/-- C3: any message other than INIT dispatched while the session is not yet
initialized produces exactly the EIO error reply, makes no filesystem call
and leaves the session (in particular its `initialized` flag) unchanged. -/
theorem pre_init_guard (hdr : fuse_in_header) (msg : FuseMessage) (se : Session)
    (hmsg : ∀ arg, msg ≠ FuseMessage.init arg) (hinit : se.initialized = false) :
    dispatch hdr msg se
      = .ok { se := se, calls := [], reply := some (Request.reply_error hdr.unique EIO) } := by
  cases msg <;> first
    | exact absurd rfl (hmsg _)
    | simp [dispatch, hinit]

/-- Witness for C3: a GETATTR dispatched on a fresh session. -/
theorem pre_init_guard_witness :
    dispatch hdr0 .getattr seFresh
      = .ok { se := seFresh, calls := [],
              reply := some (Request.reply_error hdr0.unique EIO) } :=
  pre_init_guard hdr0 .getattr seFresh (fun _ h => FuseMessage.noConfusion h) rfl

/-- Counterexample for C4: a second INIT dispatched after the session is
already initialized re-invokes the filesystem's init hook (the INIT arm
carries no already-initialized guard). -/
theorem init_hook_reinvoked_on_second_init :
    (dispatch hdr0 (.init { major := 7, minor := 8, max_readahead := 0, flags := 0 })
        seFresh).session.initialized = true
    ∧ (dispatch hdr0 (.init { major := 7, minor := 8, max_readahead := 0, flags := 0 })
        ((dispatch hdr0 (.init { major := 7, minor := 8, max_readahead := 0, flags := 0 })
          seFresh).session)).calls = [FsCall.init] :=
  ⟨rfl, rfl⟩

/-- C4 (amended): within one dispatch each lifecycle hook is invoked at most
once — the init hook exactly when the message is an INIT passing the version
check, the destroy hook exactly when the message is a DESTROY in the
initialized state. Across a sequence of messages, a repeated INIT or DESTROY
re-invokes the respective hook. -/
theorem hook_calls_per_dispatch (hdr : fuse_in_header) (msg : FuseMessage) (se : Session) :
    (dispatch hdr msg se).calls.count FsCall.init
      = (match msg with
         | .init arg => if arg.major < 7 ∨ (arg.major < 7 ∧ arg.minor < 6) then 0 else 1
         | _ => 0)
    ∧ (dispatch hdr msg se).calls.count FsCall.destroy
      = (match msg with
         | .destroy => if se.initialized then 1 else 0
         | _ => 0) := by
  cases msg with
  | init arg =>
      by_cases h : arg.major < 7 ∨ (arg.major < 7 ∧ arg.minor < 6)
      · simp [dispatch, h, DispatchResult.calls]
      · cases hfs : se.filesystem.init with
        | error e => simp [dispatch, h, hfs, DispatchResult.calls]
        | ok u => simp [dispatch, h, hfs, DispatchResult.calls]
  | destroy =>
      by_cases h : se.initialized <;> simp [dispatch, h, DispatchResult.calls]
  | _ =>
      by_cases hi : se.initialized
      · by_cases hd : se.destroyed
        · simp [dispatch, hi, hd, DispatchResult.calls]
        · simp only [dispatch, hi, hd, Bool.not_true, Bool.false_eq_true, if_false,
            eq_self_iff_true, if_true]
          exact dispatchOp_no_lifecycle_calls hdr _ se
      · simp [dispatch, hi, DispatchResult.calls]

/-- C5: GETXATTR boundary law. When the filesystem call succeeds with a value
of length L and the request asks for a buffer of size S, the dispatcher
replies with the size-only record if S is zero, with ERANGE if S is positive
and L exceeds it, and with exactly the L value bytes otherwise; in each case
the filesystem is called exactly once. -/
theorem getxattr_boundary (hdr : fuse_in_header) (s : Nat) (name : String)
    (se : Session) (value : List Nat)
    (hi : se.initialized = true) (hd : se.destroyed = false)
    (hfs : se.filesystem.getxattr hdr.nodeid name = .ok value)
    (hL : value.length < 2 ^ 32) :
    dispatch hdr (.getxattr { size := s } name) se
      = .ok { se := se, calls := [FsCall.getxattr hdr.nodeid name],
              reply := some (
                if s = 0 then
                  Request.reply hdr.unique
                    (.ok (.getxattrOut { size := value.length, padding := 0 }))
                else if value.length > s then
                  Request.reply_error hdr.unique ERANGE
                else
                  Request.reply hdr.unique (.ok (.bytes value))) } := by
  have hm : wrap32 value.length = value.length := Nat.mod_eq_of_lt hL
  by_cases h0 : s = 0
  · simp [dispatch, dispatchOp, hi, hd, hfs, h0, hm]
  · by_cases h1 : value.length > s
    · simp [dispatch, dispatchOp, hi, hd, hfs, h0, h1]
    · simp [dispatch, dispatchOp, hi, hd, hfs, h0, h1]

/-- Witness for C5: a ten-byte stored value requested with size 0 reports
size 10 and carries no value bytes. -/
theorem getxattr_boundary_witness :
    dispatch hdr0 (.getxattr { size := 0 } "user.test") seXattr
      = .ok { se := seXattr, calls := [FsCall.getxattr hdr0.nodeid "user.test"],
              reply := some (
                if 0 = 0 then
                  Request.reply hdr0.unique
                    (.ok (.getxattrOut { size := 10, padding := 0 }))
                else if 10 > 0 then
                  Request.reply_error hdr0.unique ERANGE
                else
                  Request.reply hdr0.unique
                    (.ok (.bytes [1, 2, 3, 4, 5, 6, 7, 8, 9, 10]))) } :=
  getxattr_boundary hdr0 0 "user.test" seXattr [1, 2, 3, 4, 5, 6, 7, 8, 9, 10]
    rfl rfl rfl (by decide)

/-- Counterexample for C6: the negotiated version is persisted on the session
before the init hook runs, so a failed init hook does not leave it unset: on
a fresh session whose init hook fails with error 13, dispatching INIT 7.9
replies with that error and leaves `initialized` false, yet `proto_major`
and `proto_minor` hold 7 and 9. -/
theorem failed_init_persists_version :
    (dispatch hdr0 (.init { major := 7, minor := 9, max_readahead := 4096, flags := 0 })
        seBad).session.proto_major = 7
    ∧ (dispatch hdr0 (.init { major := 7, minor := 9, max_readahead := 4096, flags := 0 })
        seBad).session.proto_minor = 9
    ∧ (dispatch hdr0 (.init { major := 7, minor := 9, max_readahead := 4096, flags := 0 })
        seBad).session.initialized = false
    ∧ (dispatch hdr0 (.init { major := 7, minor := 9, max_readahead := 4096, flags := 0 })
        seBad).replyOf = some (Request.reply_error hdr0.unique 13) :=
  ⟨rfl, rfl, rfl, rfl⟩

/-- C6 (amended): when the INIT version check passes and the filesystem's
init hook fails with error e, dispatch replies with that error and leaves
`initialized` unchanged (so never flips it to true), but the negotiated
major/minor version has already been persisted on the session. -/
theorem init_failure_replies_error (hdr : fuse_in_header) (arg : fuse_init_in)
    (se : Session) (e : Int)
    (hv : ¬(arg.major < 7 ∨ (arg.major < 7 ∧ arg.minor < 6)))
    (hfs : se.filesystem.init = .error e) :
    dispatch hdr (.init arg) se
      = .ok { se := { se with proto_major := arg.major, proto_minor := arg.minor },
              calls := [FsCall.init],
              reply := some (Request.reply_error hdr.unique e) } := by
  simp [dispatch, hv, hfs]

/-- Witness for C6 at the failing-init fixture. -/
theorem init_failure_replies_error_witness :
    dispatch hdr0 (.init { major := 7, minor := 10, max_readahead := 0, flags := 0 }) seBad
      = .ok { se := { seBad with proto_major := 7, proto_minor := 10 },
              calls := [FsCall.init],
              reply := some (Request.reply_error hdr0.unique 13) } :=
  init_failure_replies_error hdr0 { major := 7, minor := 10, max_readahead := 0, flags := 0 }
    seBad 13 (by decide) rfl

/-- Counterexample for C7: after the session is destroyed, a dispatched INIT
is not answered with EIO — the INIT arm matches before the post-destroy
guard, so it is processed normally, mutating the negotiated version (here
from minor 8 to minor 10) and replying success (error field 0). -/
theorem init_processed_after_destroy :
    (dispatch hdr0 (.init { major := 7, minor := 10, max_readahead := 0, flags := 0 })
        seDead).session.proto_minor = 10
    ∧ ((dispatch hdr0 (.init { major := 7, minor := 10, max_readahead := 0, flags := 0 })
        seDead).replyOf.map fun f => f.header.error) = some 0 :=
  ⟨rfl, rfl⟩

/-- C7 (amended): after `destroyed` is set, every dispatched opcode other
than INIT and DESTROY yields exactly the EIO error reply, with no filesystem
call and no mutation of the session state; INIT (and a repeated DESTROY) are
still processed by their own arms. -/
theorem post_destroy_guard (hdr : fuse_in_header) (msg : FuseMessage) (se : Session)
    (hmi : ∀ arg, msg ≠ FuseMessage.init arg) (hmd : msg ≠ FuseMessage.destroy)
    (hd : se.destroyed = true) :
    dispatch hdr msg se
      = .ok { se := se, calls := [], reply := some (Request.reply_error hdr.unique EIO) } := by
  cases msg <;> first
    | exact absurd rfl (hmi _)
    | exact absurd rfl hmd
    | (by_cases hi : se.initialized <;> simp [dispatch, hi, hd])

/-- Witness for C7: a GETATTR dispatched on a destroyed session. -/
theorem post_destroy_guard_witness :
    dispatch hdr0 .getattr seDead
      = .ok { se := seDead, calls := [],
              reply := some (Request.reply_error hdr0.unique EIO) } :=
  post_destroy_guard hdr0 .getattr seDead (fun _ h => FuseMessage.noConfusion h)
    (fun h => FuseMessage.noConfusion h) rfl

/-- Counterexample for C8: a FORGET dispatched before INIT does send a reply
(the pre-init guard's EIO error reply), so FORGET is not reply-free
regardless of session state. -/
theorem forget_replies_before_init :
    (dispatch hdr0 (.forget { nlookup := 1 }) seFresh).replyOf
      = some (Request.reply_error hdr0.unique EIO) :=
  rfl

/-- C8 (amended): every dispatch that completes (does not hit the
WRITE/SETXATTR size assertion) sends exactly one reply, except a FORGET
dispatched in the initialized, non-destroyed state, which sends none — a
FORGET before INIT or after DESTROY receives the guard's EIO reply instead.
A FORGET itself always completes (never throws), whatever its lookup count
and the session state. -/
theorem reply_multiplicity (hdr : fuse_in_header) (msg : FuseMessage) (se : Session) :
    (∀ out, dispatch hdr msg se = .ok out →
      (out.reply = none
        ↔ (∃ arg, msg = FuseMessage.forget arg)
            ∧ se.initialized = true ∧ se.destroyed = false))
    ∧ (∀ arg, msg = FuseMessage.forget arg → (dispatch hdr msg se).completed = true) := by
  constructor
  · intro out h
    cases msg <;>
      (by_cases hi : se.initialized <;> by_cases hd : se.destroyed <;>
        simp [dispatch, dispatchOp, hi, hd] at h <;>
        (repeat' split at h) <;>
        (try cases h) <;>
        simp_all)
  · intro arg harg
    subst harg
    by_cases hi : se.initialized <;> by_cases hd : se.destroyed <;>
      simp [dispatch, dispatchOp, hi, hd, DispatchResult.completed]

/-- Counterexample for C9: a WRITE whose trailing data span (3 bytes) differs
from the declared size field (4) is not converted into an error reply — the
source's assertion fails, aborting dispatch with no reply and no filesystem
call. -/
theorem write_size_mismatch_aborts :
    dispatch hdr0 (.write { fh := 3, offset := 0, size := 4, write_flags := 0 } [1, 2, 3]) seLive
      = .aborted seLive [] :=
  rfl

/-- C9 (amended): for WRITE and SETXATTR, a trailing span whose length
differs from the size field of the argument record fails the source's
runtime assertion: dispatch aborts, makes no filesystem call and sends no
reply, rather than converting the violation into an error reply. -/
theorem size_mismatch_aborts (hdr : fuse_in_header) (se : Session)
    (hi : se.initialized = true) (hd : se.destroyed = false) :
    (∀ (arg : fuse_write_in) (data : List Nat), data.length ≠ arg.size →
        dispatch hdr (.write arg data) se = .aborted se [])
    ∧ (∀ (arg : fuse_setxattr_in) (name : String) (value : List Nat),
        value.length ≠ arg.size →
        dispatch hdr (.setxattr arg name value) se = .aborted se []) := by
  constructor
  · intro arg data hlen
    simp [dispatch, dispatchOp, hi, hd, hlen]
  · intro arg name value hlen
    simp [dispatch, dispatchOp, hi, hd, hlen]

/-- Witness for C9: a SETXATTR carrying one value byte but declaring size 2
aborts on a live session. -/
theorem size_mismatch_aborts_witness :
    dispatch hdr0 (.setxattr { size := 2, flags := 0, position := 0 } "user.a" [7]) seLive
      = .aborted seLive [] :=
  (size_mismatch_aborts hdr0 seLive rfl rfl).2
    { size := 2, flags := 0, position := 0 } "user.a" [7] (by decide)

/-- C10: whenever `Request::read` succeeds, the buffer length equals the
number of bytes the underlying read returned, which is at least the request
header size and (by the read syscall's contract, `res ≤ capacity`) at most
the buffer capacity; hence the entry assertion of `dispatch` holds for every
accepted message. -/
theorem read_ok_invariant (capacity : Nat) (res errno : Int) (n : Nat)
    (hcontract : res ≤ (capacity : Int))
    (h : Request.read capacity res errno = .ok n) :
    (n : Int) = res ∧ fuseInHeaderSize ≤ n ∧ n ≤ capacity ∧ dispatchEntryAssertion n := by
  unfold Request.read at h
  split at h
  · cases h
  · split at h
    · cases h
    · split at h
      · cases h
      · injection h with hn
        subst hn
        refine ⟨?_, ?_, ?_, ?_⟩
        · omega
        · simp only [fuseInHeaderSize] at *
          omega
        · omega
        · simp only [dispatchEntryAssertion, fuseInHeaderSize] at *
          omega

/-- Witness for C10: a full-capacity buffer accepting a 40-byte message. -/
theorem read_ok_invariant_witness :
    ((40 : Nat) : Int) = 40 ∧ fuseInHeaderSize ≤ 40 ∧ 40 ≤ MAX_WRITE_SIZE + 4096
    ∧ dispatchEntryAssertion 40 :=
  read_ok_invariant (MAX_WRITE_SIZE + 4096) 40 0 40 (by decide) (by decide)

end Fuse
